import Mathlib

/-!
Verification development for the GS308EP PoE-switch controller.

The repository implements the same marker-based HTML scraping and
session logic three times: a libcurl CLI (`GS308EP_CLI.cpp`), an
Arduino/ESP32 library (`GS308EP.cpp`) and a test harness
(`GS308EP_test.h`).  Strings are modelled as `List Char`; the C++
`std::string::find` / Arduino `indexOf` primitives are modelled by
`strFindFrom` (`none` plays the role of `npos` / `-1`), `substr` /
`substring` by `sliceL`, and the "find the last occurrence" while-loop
and Arduino `lastIndexOf` by `lastFindL`.  Numeric telemetry values are
modelled as rationals; the C library float parser (`std::stof` /
Arduino `toFloat`) is passed in as an explicit parameter
`pf : List Char → Option ℚ` (`none` = no valid conversion), with
`parseDecimal` as the concrete instance used for evaluation on plain
decimal literals.
-/

set_option maxRecDepth 16000

/-- Convert a string literal to the character-list representation used throughout. -/
def str (s : String) : List Char := s.data

/-- `pat` matches at position `i` of `s` (the C++ `find` match condition). -/
def occursAtB (s pat : List Char) (i : Nat) : Bool := pat.isPrefixOf (s.drop i)

/-- Fuel-driven scan underlying `strFindFrom`: tries indices `i, i+1, ...`. -/
def findAux (s pat : List Char) : Nat → Nat → Option Nat
  | _, 0 => none
  | i, fuel+1 => if occursAtB s pat i then some i else findAux s pat (i+1) fuel

/-- Model of `std::string::find(pat, start)` and Arduino `indexOf(pat, start)`:
the first index `j ≥ start` at which `pat` occurs, `none` for `npos` / `-1`.
For a nonempty `pat` the two C++ variants agree, and so does this model. -/
def strFindFrom (s pat : List Char) (start : Nat) : Option Nat :=
  if start ≤ s.length then findAux s pat start (s.length + 1 - start) else none

theorem findAux_some (s pat : List Char) :
    ∀ fuel i j, findAux s pat i fuel = some j →
      i ≤ j ∧ j < i + fuel ∧ occursAtB s pat j = true ∧
        ∀ m, i ≤ m → m < j → occursAtB s pat m = false := by
  intro fuel
  induction fuel with
  | zero => intro i j h; simp [findAux] at h
  | succ n ih =>
    intro i j h
    simp only [findAux] at h
    by_cases hc : occursAtB s pat i = true
    · simp [hc] at h
      subst h
      exact ⟨le_refl i, by omega, hc, fun m h1 h2 => absurd h1 (by omega)⟩
    · simp [hc] at h
      obtain ⟨h1, h2, h3, h4⟩ := ih (i+1) j h
      refine ⟨by omega, by omega, h3, ?_⟩
      intro m hm1 hm2
      rcases Nat.eq_or_lt_of_le hm1 with he | hl
      · subst he; simpa using hc
      · exact h4 m hl hm2

theorem findAux_none (s pat : List Char) :
    ∀ fuel i, findAux s pat i fuel = none →
      ∀ m, i ≤ m → m < i + fuel → occursAtB s pat m = false := by
  intro fuel
  induction fuel with
  | zero => intro i _ m h1 h2; omega
  | succ n ih =>
    intro i h m hm1 hm2
    simp only [findAux] at h
    by_cases hc : occursAtB s pat i = true
    · simp [hc] at h
    · simp [hc] at h
      rcases Nat.eq_or_lt_of_le hm1 with he | hl
      · subst he; simpa using hc
      · exact ih (i+1) h m hl (by omega)

theorem strFind_some (s pat : List Char) (st j : Nat)
    (h : strFindFrom s pat st = some j) :
    st ≤ j ∧ j ≤ s.length ∧ occursAtB s pat j = true ∧
      ∀ m, st ≤ m → m < j → occursAtB s pat m = false := by
  unfold strFindFrom at h
  by_cases hs : st ≤ s.length
  · simp [hs] at h
    obtain ⟨h1, h2, h3, h4⟩ := findAux_some s pat (s.length + 1 - st) st j h
    exact ⟨h1, by omega, h3, h4⟩
  · simp [hs] at h

/-- An occurrence of a nonempty pattern lies strictly inside the string. -/
theorem occursAtB_lt_length (s pat : List Char) (hp : pat ≠ []) (i : Nat)
    (h : occursAtB s pat i = true) : i < s.length := by
  by_contra hc
  push_neg at hc
  unfold occursAtB at h
  rw [List.drop_eq_nil_of_le hc] at h
  cases pat with
  | nil => exact hp rfl
  | cons c cs => simp [List.isPrefixOf] at h

theorem strFind_none (s pat : List Char) (hp : pat ≠ []) (st : Nat)
    (h : strFindFrom s pat st = none) :
    ∀ m, st ≤ m → occursAtB s pat m = false := by
  intro m hm
  by_contra hc
  rw [Bool.not_eq_false] at hc
  have hlt := occursAtB_lt_length s pat hp m hc
  unfold strFindFrom at h
  by_cases hs : st ≤ s.length
  · simp [hs] at h
    have := findAux_none s pat (s.length + 1 - st) st h m hm (by omega)
    rw [this] at hc; exact Bool.false_ne_true hc
  · omega

/-- Fuel-driven loop underlying `lastFindL`. -/
def findLastAux (s pat : List Char) : Nat → Option Nat → Nat → Option Nat
  | _, acc, 0 => acc
  | start, acc, fuel+1 =>
    match strFindFrom s pat start with
    | none => acc
    | some i => findLastAux s pat (i+1) (some i) fuel

/-- Model of the while-loop
`while ((tempPos = area.find(pat, tempPos)) != npos) { last = tempPos; tempPos++; }`
used by `extractPortStats`, and of Arduino `lastIndexOf`: the last
occurrence of `pat` in `s`, or `none`. -/
def lastFindL (s pat : List Char) : Option Nat := findLastAux s pat 0 none (s.length + 2)

theorem findLastAux_spec (s pat : List Char) (hp : pat ≠ []) :
    ∀ fuel start acc,
      start ≤ s.length + 1 →
      s.length + 2 ≤ fuel + start →
      (∀ m, m < start → occursAtB s pat m = true → ∃ a, acc = some a ∧ m ≤ a) →
      (∀ a, acc = some a → occursAtB s pat a = true) →
      (∀ m, occursAtB s pat m = true →
          ∃ k, findLastAux s pat start acc fuel = some k ∧ m ≤ k) ∧
      (∀ k, findLastAux s pat start acc fuel = some k → occursAtB s pat k = true) := by
  intro fuel
  induction fuel with
  | zero => intro start acc h1 h2 _ _; omega
  | succ n ih =>
    intro start acc h1 h2 hacc1 hacc2
    simp only [findLastAux]
    cases hf : strFindFrom s pat start with
    | none =>
      constructor
      · intro m hm
        by_cases hlt : m < start
        · exact hacc1 m hlt hm
        · have := strFind_none s pat hp start hf m (by omega)
          rw [this] at hm; exact absurd hm (by simp)
      · exact hacc2
    | some i =>
      obtain ⟨hi1, hi2, hi3, _⟩ := strFind_some s pat start i hf
      have hilt : i < s.length := occursAtB_lt_length s pat hp i hi3
      apply ih (i+1) (some i) (by omega) (by omega)
      · intro m hm hocc
        exact ⟨i, rfl, by omega⟩
      · intro a ha
        injection ha with ha; subst ha; exact hi3

/-- `lastFindL` returns the greatest position at which a nonempty pattern occurs. -/
theorem lastFindL_max (s pat : List Char) (hp : pat ≠ []) (i : Nat)
    (hi : occursAtB s pat i = true) :
    ∃ k, lastFindL s pat = some k ∧ occursAtB s pat k = true ∧
      ∀ m, occursAtB s pat m = true → m ≤ k := by
  obtain ⟨hall, hsome⟩ := findLastAux_spec s pat hp (s.length + 2) 0 none
    (by omega) (by omega) (by intro m hm; omega) (by intro a ha; cases ha)
  obtain ⟨k, hk, hik⟩ := hall i hi
  refine ⟨k, hk, hsome k hk, ?_⟩
  intro m hm
  obtain ⟨k', hk', hmk'⟩ := hall m hm
  rw [hk] at hk'
  injection hk' with hk'
  omega

/-- Model of `substr(start, stop - start)` / `substring(start, stop)`:
the characters of `s` at indices `[start, stop)`. -/
def sliceL (s : List Char) (start stop : Nat) : List Char := (s.drop start).take (stop - start)

/-- Whitespace test used by Arduino `trim` and leading-whitespace skipping
in the C float conversions (space, tab, newline, vertical tab, form feed,
carriage return). -/
def isWS (c : Char) : Bool :=
  c = ' ' ∨ c = '\t' ∨ c = '\n' ∨ c = Char.ofNat 11 ∨ c = Char.ofNat 12 ∨ c = '\r'

/-- Model of Arduino `String::trim`: strip leading and trailing whitespace. -/
def trimL (s : List Char) : List Char := ((s.dropWhile isWS).reverse.dropWhile isWS).reverse

/-- Numeric value of a decimal digit string. -/
def digitsToNat (l : List Char) : Nat := l.foldl (fun a c => 10 * a + (c.toNat - 48)) 0

/-- Model of the C library float conversion (`std::stof` / `strtof` / Arduino
`toFloat`) on plain decimal inputs: skip leading whitespace, optional sign,
integer digits, optional fraction, trailing junk ignored; `none` when no digit
is consumed (no valid conversion).  Exponents, hex floats and inf/nan never
appear in the pages this repository parses and are not modelled; the claim
theorems are stated for an arbitrary parser `pf` and this concrete instance is
only used to evaluate witnesses and counterexamples. -/
def parseDecimal (s0 : List Char) : Option ℚ :=
  let s1 := s0.dropWhile isWS
  let neg : Bool := match s1 with | '-' :: _ => true | _ => false
  let s2 := match s1 with
    | '-' :: r => r
    | '+' :: r => r
    | _ => s1
  let ip := s2.takeWhile Char.isDigit
  let rest := s2.dropWhile Char.isDigit
  let fp := match rest with
    | '.' :: r => r.takeWhile Char.isDigit
    | _ => []
  if ip = [] ∧ fp = [] then none
  else
    some ((if neg then -1 else 1) *
      ((digitsToNat ip : ℚ) + (digitsToNat fp : ℚ) / ((10 : ℚ) ^ fp.length)))

/-- Decimal rendering of a number (`std::to_string` / Arduino `String(int)`). -/
def natToChars (n : Nat) : List Char := (Nat.repr n).data

/-- Marker lookup shared by the quoted-attribute extractors: the first
occurrence of `mk1`, else the first occurrence of `mk2`. -/
def attrMarkerPos (html mk1 mk2 : List Char) : Option Nat :=
  match strFindFrom html mk1 0 with
  | some p => some p
  | none => strFindFrom html mk2 0

/-- Closing-delimiter step of the CLI quoted-attribute extractors: the text
strictly between position `op` (the opening quote) and the next occurrence of
the same character `c`; `none` when no closing occurrence exists. -/
def closeAtO (html : List Char) (c : Char) (op : Nat) : Option (List Char) :=
  match strFindFrom html [c] (op + 1) with
  | some e => some (sliceL html (op + 1) e)
  | none => none

/-- Core of `GS308EP_CLI::extractRand` (GS308EP_CLI.cpp 178-217) and
`GS308EP_CLI::extractClientHash` (245-285), identical in `GS308EP_test.h`:
find the field marker (`mk1`, else `mk2`), find the literal token `value`
after it, take as opening delimiter whichever of the next `"` and the next
`'` occurs at the lower offset, and close at the next occurrence of that same
character.  `none` models every early `return ""` / `return false` exit. -/
def attrScanO (html mk1 mk2 : List Char) : Option (List Char) :=
  match attrMarkerPos html mk1 mk2 with
  | none => none
  | some pos =>
    match strFindFrom html (str "value") pos with
    | none => none
    | some valuePos =>
      match strFindFrom html ['"'] valuePos, strFindFrom html ['\''] valuePos with
      | none, none => none
      | some d, none => closeAtO html '"' d
      | none, some q => closeAtO html '\'' q
      | some d, some q => if d < q then closeAtO html '"' d else closeAtO html '\'' q

/-- `GS308EP_CLI::extractRand` (GS308EP_CLI.cpp 178-217); empty string on failure. -/
def cliExtractRand (html : List Char) : List Char :=
  (attrScanO html (str "name=\"rand\"") (str "name='rand'")).getD []

/-- `GS308EP_CLI::extractClientHash` (GS308EP_CLI.cpp 245-285): a structural
failure returns `false` and leaves `client_hash_` (`old`) unchanged; reaching
a closing quote stores the extracted text (even when empty) and reports
whether it is nonempty. -/
def cliExtractClientHash (html old : List Char) : Bool × List Char :=
  match attrScanO html (str "name=\"hash\"") (str "name='hash'") with
  | none => (false, old)
  | some v => (decide (v ≠ []), v)

/-- `GS308EP_CLI::extractCookie` (GS308EP_CLI.cpp 219-243): the text after
`SID=` up to the first `;` if one occurs, else the first `\r`, else the first
`\n`, else end of string; empty string when `SID=` is absent. -/
def cliExtractCookie (headers : List Char) : List Char :=
  match strFindFrom headers (str "SID=") 0 with
  | none => []
  | some p =>
    match strFindFrom headers (str ";") (p + 4) with
    | some e1 => sliceL headers (p + 4) e1
    | none =>
      match strFindFrom headers (str "\r") (p + 4) with
      | some e2 => sliceL headers (p + 4) e2
      | none =>
        match strFindFrom headers (str "\n") (p + 4) with
        | some e3 => sliceL headers (p + 4) e3
        | none => sliceL headers (p + 4) headers.length

/-- `GS308EP::extractRand` (GS308EP.cpp 189-236).  Anchors on `id="rand"` /
`id='rand'`; the opening quote is the next `'` if any, else the next `"`; the
closing quote is the next `'` after the opener if any, else the next `"`. -/
def gsExtractRand (html : List Char) : List Char :=
  match attrMarkerPos html (str "id=\"rand\"") (str "id='rand'") with
  | none => []
  | some randIndex =>
    match strFindFrom html (str "value") randIndex with
    | none => []
    | some valueIndex =>
      match (match strFindFrom html ['\''] valueIndex with
             | some q => some q
             | none => strFindFrom html ['"'] valueIndex) with
      | none => []
      | some startQuote =>
        match (match strFindFrom html ['\''] (startQuote + 1) with
               | some e => some e
               | none => strFindFrom html ['"'] (startQuote + 1)) with
        | none => []
        | some endQuote => sliceL html (startQuote + 1) endQuote

/-- `GS308EP::extractClientHash` (GS308EP.cpp 301-348): tries `name='hash'`
then `name="hash"`; the opening quote is the next `"` if any, else the next
`'`; the closing quote is the next `"` after the opener if any, else the next
`'`; stores the text (even when empty) and reports nonemptiness. -/
def gsExtractClientHash (html old : List Char) : Bool × List Char :=
  match attrMarkerPos html (str "name='hash'") (str "name=\"hash\"") with
  | none => (false, old)
  | some hashIndex =>
    match strFindFrom html (str "value") hashIndex with
    | none => (false, old)
    | some valueIndex =>
      match (match strFindFrom html ['"'] valueIndex with
             | some q => some q
             | none => strFindFrom html ['\''] valueIndex) with
      | none => (false, old)
      | some startQuote =>
        match (match strFindFrom html ['"'] (startQuote + 1) with
               | some e => some e
               | none => strFindFrom html ['\''] (startQuote + 1)) with
        | none => (false, old)
        | some endQuote =>
          (decide (sliceL html (startQuote + 1) endQuote ≠ []),
            sliceL html (startQuote + 1) endQuote)

/-- `GS308EP::extractCookie` (GS308EP.cpp 262-296): requires `Set-Cookie:`
then `SID=`; the terminator is the first `;`, else `\r`, else `\n`; with no
terminator at all it fails.  The extracted text is stored into `_cookieSID`
even when it is empty. -/
def gsExtractCookie (headers old : List Char) : Bool × List Char :=
  match strFindFrom headers (str "Set-Cookie:") 0 with
  | none => (false, old)
  | some cookieIndex =>
    match strFindFrom headers (str "SID=") cookieIndex with
    | none => (false, old)
    | some sidIndex0 =>
      match (match strFindFrom headers (str ";") (sidIndex0 + 4) with
             | some e => some e
             | none => match strFindFrom headers (str "\r") (sidIndex0 + 4) with
                       | some e => some e
                       | none => strFindFrom headers (str "\n") (sidIndex0 + 4)) with
      | none => (false, old)
      | some endIndex =>
        (decide (sliceL headers (sidIndex0 + 4) endIndex ≠ []),
          sliceL headers (sidIndex0 + 4) endIndex)

/-- `isValidPort` (all three implementations): `1 ≤ port ≤ 8`. -/
def isValidPort (port : Nat) : Bool := 1 ≤ port ∧ port ≤ 8

/-- The per-port anchor marker `value="<port>"`. -/
def portAnchor (port : Nat) : List Char := str "value=\"" ++ natToChars port ++ str "\""

/-- The `<span>...</span>` forward scan shared by the telemetry extractors:
next `<span>` at or after `from0`, text up to the following `</span>`. -/
def spanTextAfter (html : List Char) (from0 : Nat) : Option (List Char) :=
  match strFindFrom html (str "<span>") from0 with
  | none => none
  | some ss =>
    match strFindFrom html (str "</span>") (ss + 6) with
    | none => none
    | some se => some (sliceL html (ss + 6) se)

/-- `GS308EP_CLI::extractPortPower` (GS308EP_CLI.cpp 430-469): -1 when the
port anchor is missing, when `ml574` is missing or more than 2000 bytes after
the anchor, when the span is malformed, or when `std::stof` throws (caught);
otherwise the parsed value. -/
def cliExtractPortPower (pf : List Char → Option ℚ) (html : List Char) (port : Nat) : ℚ :=
  match strFindFrom html (portAnchor port) 0 with
  | none => -1
  | some portPos =>
    match strFindFrom html (str "ml574") portPos with
    | none => -1
    | some m =>
      if portPos + 2000 < m then -1
      else
        match spanTextAfter html (m + 5) with
        | none => -1
        | some t => (pf t).getD (-1)

/-- `GS308EPTest::extractPortPower` (GS308EP_test.h 235-258): identical to the
CLI version except that the final `std::stof` call is not wrapped in
try/catch, so a failed conversion propagates as a thrown
`std::invalid_argument`, modelled as `Except.error`. -/
def testExtractPortPower (pf : List Char → Option ℚ) (html : List Char) (port : Nat) :
    Except Unit ℚ :=
  match strFindFrom html (portAnchor port) 0 with
  | none => .ok (-1)
  | some portPos =>
    match strFindFrom html (str "ml574") portPos with
    | none => .ok (-1)
    | some m =>
      if portPos + 2000 < m then .ok (-1)
      else
        match spanTextAfter html (m + 5) with
        | none => .ok (-1)
        | some t =>
          match pf t with
          | some v => .ok v
          | none => .error ()

/-- `GS308EP::extractPortPower` (GS308EP.cpp 463-508): 1000-byte forward
window; the span text is trimmed and converted with Arduino `toFloat`, which
yields 0 when no conversion is possible. -/
def gsExtractPortPower (pf : List Char → Option ℚ) (html : List Char) (port : Nat) : ℚ :=
  match strFindFrom html (portAnchor port) 0 with
  | none => -1
  | some portPos =>
    match strFindFrom html (str "ml574") portPos with
    | none => -1
    | some m =>
      if portPos + 1000 < m then -1
      else
        match spanTextAfter html (m + 5) with
        | none => -1
        | some t => (pf (trimL t)).getD 0

/-- `PoEPortStats` (GS308EP.h / GS308EP_CLI.h). -/
structure PoEPortStats where
  port : Nat
  enabled : Bool
  status : List Char
  voltage : ℚ
  current : ℚ
  power : ℚ
  temperature : ℚ
  fault : List Char
  powerClass : List Char
deriving DecidableEq

/-- The default-initialised record set at the top of both `extractPortStats`
implementations. -/
def defaultStats (port : Nat) : PoEPortStats :=
  { port := port, enabled := false, status := str "Unknown", voltage := 0,
    current := 0, power := 0, temperature := 0, fault := str "Unknown",
    powerClass := str "Unknown" }

/-- Backward search area of `extractPortStats`: the up-to-500 bytes before
the anchor (`html.substr(searchStart, portPos - searchStart)` with
`searchStart = portPos > 500 ? portPos - 500 : 0`). -/
def backArea (html : List Char) (portPos : Nat) : List Char :=
  sliceL html (portPos - 500) portPos

/-- Status-span step of `GS308EP_CLI::extractPortStats` (lines 503-516): the
text of the first `<span>` after position `k` in the backward search area,
`"Unknown"` (the untouched default) when the span is malformed. -/
def statusTextAt (sa : List Char) (k : Nat) : List Char :=
  (spanTextAfter sa k).getD (str "Unknown")

/-- Class-text step of `GS308EP_CLI::extractPortStats` (lines 527-536): the
text between the first `>` after position `k` and the following `</span>`. -/
def classTextAt (sa : List Char) (k : Nat) : Option (List Char) :=
  match strFindFrom sa (str ">") k with
  | none => none
  | some g =>
    match strFindFrom sa (str "</span>") (g + 1) with
    | none => none
    | some e => some (sliceL sa (g + 1) e)

/-- Power-class decoding of `GS308EP_CLI::extractPortStats` (lines 536-549):
`ml003@N@...` becomes `Class N` when the text is longer than 7 characters and
a second `@` exists at or after offset 6; texts of other shapes are kept
verbatim; the default `"Unknown"` stays when the `ml003@` form has no second
`@`. -/
def cliDecodeClass (classText : List Char) : List Char :=
  if occursAtB classText (str "ml003@") 0 = true ∧ 7 < classText.length then
    match strFindFrom classText (str "@") 6 with
    | some atPos => str "Class " ++ sliceL classText 6 atPos
    | none => str "Unknown"
  else classText

/-- The `extractValue` lambda of `GS308EP_CLI::extractPortStats` (lines
554-578): 2000-byte forward window, 0 on any failure including a `stof`
throw. -/
def cliFieldValue (pf : List Char → Option ℚ) (html : List Char) (portPos : Nat)
    (field : List Char) : ℚ :=
  match strFindFrom html field portPos with
  | none => 0
  | some fp =>
    if fp < portPos + 2000 then
      match spanTextAfter html (fp + 5) with
      | none => 0
      | some t => (pf t).getD 0
    else 0

/-- Fault-text step of `GS308EP_CLI::extractPortStats` (lines 585-599). -/
def cliFaultText (html : List Char) (portPos : Nat) : List Char :=
  match strFindFrom html (str "ml581") portPos with
  | none => str "Unknown"
  | some fp =>
    if fp < portPos + 2000 then (spanTextAfter html (fp + 5)).getD (str "Unknown")
    else str "Unknown"

/-- `GS308EP_CLI::extractPortStats` (GS308EP_CLI.cpp 471-602), returning the
C++ out-parameter together with the boolean result.  The C++ code assigns
`enabled` together with `status` inside the span-extraction branch; folding it
into a comparison with the final status text is equivalent because the
untouched default `"Unknown"` differs from `"Delivering Power"`. -/
def cliExtractPortStats (pf : List Char → Option ℚ) (html : List Char) (port : Nat) :
    Bool × PoEPortStats :=
  match strFindFrom html (portAnchor port) 0 with
  | none => (false, defaultStats port)
  | some portPos =>
    let sa := backArea html portPos
    let status : List Char :=
      match lastFindL sa (str "poe-power-mode") with
      | some k => statusTextAt sa k
      | none => str "Unknown"
    let powClass : List Char :=
      match lastFindL sa (str "powClassShow") with
      | some k => match classTextAt sa k with
                  | some t => cliDecodeClass t
                  | none => str "Unknown"
      | none => str "Unknown"
    (true,
      { port := port,
        enabled := decide (status = str "Delivering Power"),
        status := status,
        voltage := cliFieldValue pf html portPos (str "ml570"),
        current := cliFieldValue pf html portPos (str "ml572"),
        power := cliExtractPortPower pf html port,
        temperature := cliFieldValue pf html portPos (str "ml575"),
        fault := cliFaultText html portPos,
        powerClass := powClass })

/-- Pure core of `GS308EP_CLI::showAllStats` (GS308EP_CLI.cpp 757-765): try
ports 1..8 in order, keeping exactly the records whose extraction succeeds. -/
def cliAllStats (pf : List Char → Option ℚ) (html : List Char) : List PoEPortStats :=
  (List.range 8).filterMap (fun k =>
    match cliExtractPortStats pf html (k + 1) with
    | (true, st) => some st
    | (false, _) => none)

/-- The `std::accumulate` over `power` used by `GS308EP_CLI::outputAllStats`
(GS308EP_CLI.cpp 848-850). -/
def cliTotalPower (l : List PoEPortStats) : ℚ := l.foldl (fun a s => a + s.power) 0

/-- Power-class decoding of `GS308EP::extractPortStats` (GS308EP.cpp 637-651):
like the CLI decoding but with no length guard, and requiring the second `@`
strictly after offset 6. -/
def gsDecodeClass (classText : List Char) : List Char :=
  if occursAtB classText (str "ml003@") 0 = true then
    match strFindFrom classText (str "@") 6 with
    | some atPos =>
        if 6 < atPos then str "Class " ++ sliceL classText 6 atPos else str "Unknown"
    | none => str "Unknown"
  else classText

/-- Field helper of `GS308EP::extractPortStats` (GS308EP.cpp 656-711):
1000-byte forward window, Arduino `trim` + `toFloat` (0 on no conversion). -/
def gsFieldValue (pf : List Char → Option ℚ) (html : List Char) (portPos : Nat)
    (field : List Char) : ℚ :=
  match strFindFrom html field portPos with
  | none => 0
  | some fp =>
    if fp < portPos + 1000 then
      match spanTextAfter html (fp + 5) with
      | none => 0
      | some t => (pf (trimL t)).getD 0
    else 0

/-- Fault-text step of `GS308EP::extractPortStats` (GS308EP.cpp 713-728). -/
def gsFaultText (html : List Char) (portPos : Nat) : List Char :=
  match strFindFrom html (str "ml581") portPos with
  | none => str "Unknown"
  | some fp =>
    if fp < portPos + 1000 then
      match spanTextAfter html (fp + 5) with
      | some t => trimL t
      | none => str "Unknown"
    else str "Unknown"

/-- `GS308EP::extractPortStats` (GS308EP.cpp 577-731). -/
def gsExtractPortStats (pf : List Char → Option ℚ) (html : List Char) (port : Nat) :
    Bool × PoEPortStats :=
  match strFindFrom html (portAnchor port) 0 with
  | none => (false, defaultStats port)
  | some portPos =>
    let sa := backArea html portPos
    let status : List Char :=
      match lastFindL sa (str "poe-power-mode") with
      | some k =>
        match spanTextAfter sa k with
        | some t => trimL t
        | none => str "Unknown"
      | none => str "Unknown"
    let powClass : List Char :=
      match lastFindL sa (str "powClassShow") with
      | some k => match classTextAt sa k with
                  | some t => gsDecodeClass (trimL t)
                  | none => str "Unknown"
      | none => str "Unknown"
    (true,
      { port := port,
        enabled := decide (status = str "Delivering Power"),
        status := status,
        voltage := gsFieldValue pf html portPos (str "ml570"),
        current := gsFieldValue pf html portPos (str "ml572"),
        power := gsExtractPortPower pf html port,
        temperature := gsFieldValue pf html portPos (str "ml575"),
        fault := gsFaultText html portPos,
        powerClass := powClass })

/-- Loop of `GS308EP::getAllPoEPortStats` (GS308EP.cpp 754-764): every slot of
the caller's 8-element array is filled, whether or not that port's anchor was
found, and the boolean tells whether all eight extractions succeeded. -/
def gsAllStatsCore (pf : List Char → Option ℚ) (html : List Char) :
    Bool × List PoEPortStats :=
  ((List.range 8).all (fun k => (gsExtractPortStats pf html (k + 1)).1),
   (List.range 8).map (fun k => (gsExtractPortStats pf html (k + 1)).2))

/-- One observable request of the CLI model ("transport call"). -/
inductive ReqEvent where
  | get (path : List Char)
  | post (path body : List Char)
  | sleep (ms : Nat)
deriving DecidableEq

/-- One libcurl exchange as the environment provides it: `ok` models
`res == CURLE_OK`, `status` the `CURLINFO_RESPONSE_CODE`, `headers` what the
header callback accumulated and `body` what the write callback accumulated. -/
structure CliResp where
  ok : Bool
  status : Int
  headers : List Char
  body : List Char
deriving DecidableEq

/-- The mutable fields of `GS308EP_CLI`, plus the request trace (most recent
event first).  `host_` and `verbose_` only affect the URL text and logging and
are not modelled. -/
structure CLIState where
  password : List Char
  cookieSid : List Char
  clientHash : List Char
  authenticated : Bool
  lastCode : Int
  trace : List ReqEvent
deriving DecidableEq

/-- A freshly constructed `GS308EP_CLI` with the given password. -/
def cliInit (pw : List Char) : CLIState :=
  { password := pw, cookieSid := [], clientHash := [], authenticated := false,
    lastCode := 0, trace := [] }

/-- `GS308EP_CLI::httpGet` (GS308EP_CLI.cpp 46-98): on `CURLE_OK` record the
response code and adopt a nonempty `SID` cookie from the headers; on a curl
failure set the code to 0.  The accumulated body is returned either way. -/
def cliHttpGet (s : CLIState) (path : List Char) (r : CliResp) : List Char × CLIState :=
  let s0 := { s with trace := ReqEvent.get path :: s.trace }
  if r.ok then
    (r.body,
      { s0 with lastCode := r.status,
                cookieSid := if cliExtractCookie r.headers ≠ [] then cliExtractCookie r.headers
                             else s0.cookieSid })
  else (r.body, { s0 with lastCode := 0 })

/-- `GS308EP_CLI::httpPost` (GS308EP_CLI.cpp 100-153); same cookie and
response-code behavior as `cliHttpGet`. -/
def cliHttpPost (s : CLIState) (path body : List Char) (r : CliResp) :
    List Char × CLIState :=
  let s0 := { s with trace := ReqEvent.post path body :: s.trace }
  if r.ok then
    (r.body,
      { s0 with lastCode := r.status,
                cookieSid := if cliExtractCookie r.headers ≠ [] then cliExtractCookie r.headers
                             else s0.cookieSid })
  else (r.body, { s0 with lastCode := 0 })

/-- `GS308EP_CLI::login` (GS308EP_CLI.cpp 287-334), with the MD5 routine
passed in as `md5` (`mergeHash(password, rand) = md5Hash(password + rand)` is
inlined).  `r1` answers the GET of the login page, `r2` the credential POST. -/
def cliLogin (md5 : List Char → List Char) (s : CLIState) (r1 r2 : CliResp) :
    Bool × CLIState :=
  let (loginPage, s1) := cliHttpGet s (str "/login.cgi") r1
  if s1.lastCode ≠ 200 then (false, s1)
  else
    let rand := cliExtractRand loginPage
    if rand = [] then (false, s1)
    else
      let (_, s2) := cliHttpPost s1 (str "/login.cgi")
        (str "password=" ++ md5 (s1.password ++ rand)) r2
      if s2.lastCode ≠ 200 ∨ s2.cookieSid = [] then (false, s2)
      else (true, { s2 with authenticated := true })

/-- `GS308EP_CLI::setPortState` (GS308EP_CLI.cpp 341-384). -/
def cliSetPortState (s : CLIState) (port : Nat) (enabled : Bool) (r1 r2 : CliResp) :
    Bool × CLIState :=
  if s.authenticated = false then (false, s)
  else if isValidPort port = false then (false, s)
  else
    let (configPage, s1) := cliHttpGet s (str "/PoEPortConfig.cgi") r1
    if s1.lastCode ≠ 200 then (false, s1)
    else
      match cliExtractClientHash configPage s1.clientHash with
      | (false, h) => (false, { s1 with clientHash := h })
      | (true, h) =>
        let (_, s3) := cliHttpPost { s1 with clientHash := h } (str "/PoEPortConfig.cgi")
          (str "ACTION=Apply&portID=" ++ natToChars (port - 1) ++
           str "&ADMIN_MODE=" ++ (if enabled then str "1" else str "0") ++
           str "&PORT_PRIO=0&POW_MOD=3&POW_LIMT_TYP=0&DETEC_TYP=2&DISCONNECT_TYP=2&hash=" ++ h)
          r2
        (decide (s3.lastCode = 200), s3)

/-- `GS308EP_CLI::cyclePort` (GS308EP_CLI.cpp 657-702).  The JSON/stdout
output is not modelled; `usleep` is recorded as a `sleep` trace event. -/
def cliCyclePort (s : CLIState) (port delayMs : Nat) (r1 r2 r3 r4 : CliResp) :
    Bool × CLIState :=
  match cliSetPortState s port false r1 r2 with
  | (false, s1) => (false, s1)
  | (true, s1) =>
    match cliSetPortState { s1 with trace := ReqEvent.sleep delayMs :: s1.trace }
        port true r3 r4 with
    | (false, s3) => (false, s3)
    | (true, s3) => (true, s3)

/-- `GS308EP_CLI::getPortStatus` (GS308EP_CLI.cpp 386-428).
`searchArea[quotePos + 1]` reads the terminating null character when the
quote is the last character; modelled by `getD` with `Char.ofNat 0`. -/
def cliGetPortStatus (s : CLIState) (port : Nat) (r : CliResp) : Bool × CLIState :=
  if s.authenticated = false ∨ isValidPort port = false then (false, s)
  else
    let (statusPage, s1) := cliHttpGet s (str "/getPoePortStatus.cgi") r
    if s1.lastCode ≠ 200 then (false, s1)
    else
      match strFindFrom statusPage (portAnchor port) 0 with
      | none => (false, s1)
      | some portPos =>
        match (let searchArea := sliceL statusPage portPos
                 (min (portPos + 1000) statusPage.length)
               match strFindFrom searchArea (str "hidPortPwr") 0 with
               | none => none
               | some pwrPos =>
                 match strFindFrom searchArea (str "value") pwrPos with
                 | none => none
                 | some valuePos =>
                   match strFindFrom searchArea (str "\"") valuePos with
                   | none => none
                   | some quotePos =>
                     some (decide (searchArea.getD (quotePos + 1) (Char.ofNat 0) = '1'))) with
        | none => (false, s1)
        | some b => (b, s1)

/-- `GS308EP_CLI::showPortStatus` (GS308EP_CLI.cpp 704-709): output only,
always returns true. -/
def cliShowPortStatus (s : CLIState) (port : Nat) (r : CliResp) : Bool × CLIState :=
  (true, (cliGetPortStatus s port r).2)

/-- `GS308EP_CLI::showPortPower` (GS308EP_CLI.cpp 711-723): returns
`power >= 0`. -/
def cliShowPortPower (pf : List Char → Option ℚ) (s : CLIState) (port : Nat)
    (r : CliResp) : Bool × CLIState :=
  let (statusPage, s1) := cliHttpGet s (str "/getPoePortStatus.cgi") r
  if s1.lastCode ≠ 200 then (false, s1)
  else (decide (0 ≤ cliExtractPortPower pf statusPage port), s1)

/-- `GS308EP_CLI::showTotalPower` (GS308EP_CLI.cpp 725-746); the accumulated
total is only printed, so the state effect is the GET alone. -/
def cliShowTotalPower (s : CLIState) (r : CliResp) : Bool × CLIState :=
  let (_, s1) := cliHttpGet s (str "/getPoePortStatus.cgi") r
  if s1.lastCode ≠ 200 then (false, s1) else (true, s1)

/-- `GS308EP_CLI::showAllStats` (GS308EP_CLI.cpp 748-769): returns
`!stats.empty()`. -/
def cliShowAllStats (pf : List Char → Option ℚ) (s : CLIState) (r : CliResp) :
    Bool × CLIState :=
  let (statusPage, s1) := cliHttpGet s (str "/getPoePortStatus.cgi") r
  if s1.lastCode ≠ 200 then (false, s1)
  else (decide (cliAllStats pf statusPage ≠ []), s1)

/-- The public state-mutating operations of `GS308EP_CLI`, each carrying the
transport responses its HTTP exchanges receive (and `login` the MD5
routine).  `turnOn`/`turnOff` cover `turnOnPort`/`turnOffPort`, whose only
state effect is the inner `setPortState`. -/
inductive CLIOp where
  | login (md5 : List Char → List Char) (r1 r2 : CliResp)
  | turnOn (port : Nat) (r1 r2 : CliResp)
  | turnOff (port : Nat) (r1 r2 : CliResp)
  | cycle (port delayMs : Nat) (r1 r2 r3 r4 : CliResp)
  | showStatus (port : Nat) (r : CliResp)
  | showPower (port : Nat) (r : CliResp)
  | showTotal (r : CliResp)
  | showAll (r : CliResp)

/-- State effect of one CLI operation; `parseDecimal` instantiates the float
parser (no state field depends on parsed values). -/
def cliApply (s : CLIState) : CLIOp → CLIState
  | .login m r1 r2 => (cliLogin m s r1 r2).2
  | .turnOn p r1 r2 => (cliSetPortState s p true r1 r2).2
  | .turnOff p r1 r2 => (cliSetPortState s p false r1 r2).2
  | .cycle p d r1 r2 r3 r4 => (cliCyclePort s p d r1 r2 r3 r4).2
  | .showStatus p r => (cliShowPortStatus s p r).2
  | .showPower p r => (cliShowPortPower parseDecimal s p r).2
  | .showTotal r => (cliShowTotalPower s r).2
  | .showAll r => (cliShowAllStats parseDecimal s r).2

/-- States reachable from a fresh `GS308EP_CLI` by any sequence of public
operations with arbitrary transport responses. -/
inductive CliReach : CLIState → Prop where
  | init (pw : List Char) : CliReach (cliInit pw)
  | step {s : CLIState} (op : CLIOp) : CliReach s → CliReach (cliApply s op)

/-- One HTTP exchange as the Arduino `HTTPClient` presents it to `GS308EP`:
the code returned by `GET()`/`POST()`, the value of the collected
`Set-Cookie` header, and the body returned by `getString()`. -/
structure GsResp where
  status : Int
  setCookie : List Char
  body : List Char
deriving DecidableEq

/-- The mutable fields of `GS308EP` (`_ip` only affects URL text and is not
modelled). -/
structure GsState where
  password : List Char
  cookieSID : List Char
  clientHash : List Char
  authenticated : Bool
  lastResponseCode : Int
deriving DecidableEq

/-- A freshly constructed `GS308EP` with the given password. -/
def gsInit (pw : List Char) : GsState :=
  { password := pw, cookieSID := [], clientHash := [], authenticated := false,
    lastResponseCode := 0 }

/-- `GS308EP::httpGet` (GS308EP.cpp 393-420): the body and the `Set-Cookie`
header are only consulted when the response code is 200; otherwise the empty
string is returned. -/
def gsHttpGet (s : GsState) (r : GsResp) : List Char × GsState :=
  if r.status = 200 then
    if r.setCookie ≠ [] then
      (r.body, { s with lastResponseCode := r.status,
                        cookieSID := (gsExtractCookie r.setCookie s.cookieSID).2 })
    else (r.body, { s with lastResponseCode := r.status })
  else ([], { s with lastResponseCode := r.status })

/-- `GS308EP::httpPost` (GS308EP.cpp 425-455): same response handling as
`gsHttpGet`; `body0` is the posted form data (no state effect). -/
def gsHttpPost (s : GsState) (body0 : List Char) (r : GsResp) : List Char × GsState :=
  if r.status = 200 then
    if r.setCookie ≠ [] then
      (r.body, { s with lastResponseCode := r.status,
                        cookieSID := (gsExtractCookie r.setCookie s.cookieSID).2 })
    else (r.body, { s with lastResponseCode := r.status })
  else ([], { s with lastResponseCode := r.status })

/-- `GS308EP::fetchLoginPage` (GS308EP.cpp 157-184): an empty response fails;
a missing `rand` token falls back to hashing the bare password (legacy
firmware), otherwise the merge-hash `md5(password + rand)` is stored. -/
def gsFetchLoginPage (md5 : List Char → List Char) (s : GsState) (r : GsResp) :
    Bool × GsState :=
  let (response, s1) := gsHttpGet s r
  if response = [] then (false, s1)
  else
    if gsExtractRand response = [] then (true, { s1 with clientHash := md5 s1.password })
    else (true, { s1 with clientHash := md5 (s1.password ++ gsExtractRand response) })

/-- `GS308EP::login` (GS308EP.cpp 42-64): after the credential POST,
`_authenticated = !_cookieSID.isEmpty()` is the entire success test. -/
def gsLogin (md5 : List Char → List Char) (s : GsState) (r1 r2 : GsResp) :
    Bool × GsState :=
  match gsFetchLoginPage md5 s r1 with
  | (false, s1) => (false, s1)
  | (true, s1) =>
    let (_, s2) := gsHttpPost s1 (str "password=" ++ s1.clientHash) r2
    (decide (s2.cookieSID ≠ []), { s2 with authenticated := decide (s2.cookieSID ≠ []) })

/-- `GS308EP::setPoEPortState` (GS308EP.cpp 353-388): note the final success
test `response.indexOf("SUCCESS") != -1 || _lastResponseCode == 200`. -/
def gsSetPoEPortState (s : GsState) (port : Nat) (enabled : Bool) (r1 r2 : GsResp) :
    Bool × GsState :=
  if isValidPort port = false ∨ s.authenticated = false then (false, s)
  else
    let (response, s1) := gsHttpGet s r1
    match gsExtractClientHash response s1.clientHash with
    | (false, h) => (false, { s1 with clientHash := h })
    | (true, h) =>
      let (response2, s3) := gsHttpPost { s1 with clientHash := h }
        (str "ACTION=Apply&portID=" ++ natToChars (port - 1) ++
         str "&ADMIN_MODE=" ++ (if enabled then str "1" else str "0") ++
         str "&PORT_PRIO=0&POW_MOD=3&POW_LIMT_TYP=0&DETEC_TYP=2&DISCONNECT_TYP=2&hash=" ++ h)
        r2
      (decide ((strFindFrom response2 (str "SUCCESS") 0).isSome ∨ s3.lastResponseCode = 200),
        s3)

/-- `GS308EP::cyclePoEPort` (GS308EP.cpp 132-142); the blocking `delay` has no
observable state effect in this model. -/
def gsCyclePoEPort (s : GsState) (port delayMs : Nat) (r1 r2 r3 r4 : GsResp) :
    Bool × GsState :=
  match gsSetPoEPortState s port false r1 r2 with
  | (false, s1) => (false, s1)
  | (true, s1) => gsSetPoEPortState s1 port true r3 r4

/-- `GS308EP::getPoEPortStatus` (GS308EP.cpp 93-127); `charAt` past the end
yields the null character. -/
def gsGetPoEPortStatus (s : GsState) (port : Nat) (r : GsResp) : Bool × GsState :=
  if isValidPort port = false ∨ s.authenticated = false then (false, s)
  else
    let (response, s1) := gsHttpGet s r
    match strFindFrom response (str "\"port\" value=\"" ++ natToChars port ++ str "\"") 0 with
    | none => (false, s1)
    | some portIndex =>
      match strFindFrom response (str "hidPortPwr\" value=\"") portIndex with
      | none => (false, s1)
      | some pwrIndex =>
        (decide (response.getD (pwrIndex + 19) (Char.ofNat 0) = '1'), s1)

/-- `GS308EP::getPoEPortPower` (GS308EP.cpp 513-535). -/
def gsGetPoEPortPower (pf : List Char → Option ℚ) (s : GsState) (port : Nat)
    (r : GsResp) : ℚ × GsState :=
  if isValidPort port = false then (-1, s)
  else if s.authenticated = false then (-1, s)
  else
    let (response, s1) := gsHttpGet s r
    if s1.lastResponseCode ≠ 200 then (-1, s1)
    else (gsExtractPortPower pf response port, s1)

/-- `GS308EP::getTotalPoEPower` (GS308EP.cpp 540-568). -/
def gsGetTotalPoEPower (pf : List Char → Option ℚ) (s : GsState) (r : GsResp) :
    ℚ × GsState :=
  if s.authenticated = false then (-1, s)
  else
    let (response, s1) := gsHttpGet s r
    if s1.lastResponseCode ≠ 200 then (-1, s1)
    else
      ((List.range 8).foldl (fun acc k =>
        if 0 ≤ gsExtractPortPower pf response (k + 1)
        then acc + gsExtractPortPower pf response (k + 1) else acc) 0, s1)

/-- `GS308EP::getAllPoEPortStats` (GS308EP.cpp 738-765). -/
def gsGetAllPoEPortStats (pf : List Char → Option ℚ) (s : GsState) (r : GsResp) :
    Bool × GsState :=
  if s.authenticated = false then (false, s)
  else
    let (response, s1) := gsHttpGet s r
    if s1.lastResponseCode ≠ 200 then (false, s1)
    else ((gsAllStatsCore pf response).1, s1)

/-- The public state-mutating operations of `GS308EP`. -/
inductive GsOp where
  | login (md5 : List Char → List Char) (r1 r2 : GsResp)
  | turnOn (port : Nat) (r1 r2 : GsResp)
  | turnOff (port : Nat) (r1 r2 : GsResp)
  | cycle (port delayMs : Nat) (r1 r2 r3 r4 : GsResp)
  | status (port : Nat) (r : GsResp)
  | power (port : Nat) (r : GsResp)
  | total (r : GsResp)
  | allStats (r : GsResp)

/-- State effect of one `GS308EP` operation. -/
def gsApply (s : GsState) : GsOp → GsState
  | .login m r1 r2 => (gsLogin m s r1 r2).2
  | .turnOn p r1 r2 => (gsSetPoEPortState s p true r1 r2).2
  | .turnOff p r1 r2 => (gsSetPoEPortState s p false r1 r2).2
  | .cycle p d r1 r2 r3 r4 => (gsCyclePoEPort s p d r1 r2 r3 r4).2
  | .status p r => (gsGetPoEPortStatus s p r).2
  | .power p r => (gsGetPoEPortPower parseDecimal s p r).2
  | .total r => (gsGetTotalPoEPower parseDecimal s r).2
  | .allStats r => (gsGetAllPoEPortStats parseDecimal s r).2

/-- States reachable from a fresh `GS308EP` by any sequence of public
operations with arbitrary transport responses. -/
inductive GsReach : GsState → Prop where
  | init (pw : List Char) : GsReach (gsInit pw)
  | step {s : GsState} (op : GsOp) : GsReach s → GsReach (gsApply s op)

/-- C1 (amended, CLI/test extractors): once the field marker and a later
`value` token are found and both quote characters occur after it, the opening
delimiter is whichever of the next `"` and the next `'` occurs at the lower
byte offset, and the result is the text strictly up to the next occurrence of
that same character — `none` when that character never recurs (`closeAtO`).
The Arduino `GS308EP::extractRand` does not obey this rule (see the
counterexample): it anchors on `id=`, prefers `'` as opener regardless of
offset, and accepts either character as closer. -/
theorem attrScan_lower_offset_same_close (html mk1 mk2 : List Char) (mp vp dq sq : Nat)
    (h1 : attrMarkerPos html mk1 mk2 = some mp)
    (h2 : strFindFrom html (str "value") mp = some vp)
    (h3 : strFindFrom html ['"'] vp = some dq)
    (h4 : strFindFrom html ['\''] vp = some sq) :
    (dq < sq → attrScanO html mk1 mk2 = closeAtO html '"' dq) ∧
    (sq < dq → attrScanO html mk1 mk2 = closeAtO html '\'' sq) := by
  constructor
  · intro hlt
    simp only [attrScanO, h1, h2, h3, h4]
    rw [if_pos hlt]
  · intro hlt
    have hn : ¬ dq < sq := by omega
    simp only [attrScanO, h1, h2, h3, h4]
    rw [if_neg hn]

/-- C1 witness: on `name='rand' value="AB"'` the double quote (offset 18)
precedes the single quote (offset 22), so the value is read between the two
double quotes. -/
theorem attrScan_lower_offset_witness :
    attrScanO (str "name='rand' value=\"AB\"'") (str "name=\"rand\"") (str "name='rand'") =
      some (str "AB") := by
  have h := (attrScan_lower_offset_same_close (str "name='rand' value=\"AB\"'")
    (str "name=\"rand\"") (str "name='rand'") 0 12 18 22
    (by decide) (by decide) (by decide) (by decide)).1 (by decide)
  rw [h]; decide

/-- C1 counterexample: on `id="rand" name="rand" value="x'y"` the field-name
marker and the `value` token are present and the claim's lower-offset /
same-character rule (the behavior of `attrScanO`, established by the C1
theorem) yields `x'y` — but the Arduino `GS308EP::extractRand` returns `y`,
taking the single quote inside the value as opener and the final double quote
as closer. -/
theorem gsExtractRand_quote_rule_cex :
    attrScanO (str "id=\"rand\" name=\"rand\" value=\"x'y\"")
        (str "name=\"rand\"") (str "name='rand'") = some (str "x'y") ∧
    gsExtractRand (str "id=\"rand\" name=\"rand\" value=\"x'y\"") = str "y" ∧
    str "y" ≠ str "x'y" := by decide

/-- Characterization of `gsHttpGet` as an explicit pair (helper). -/
theorem gsHttpGet_parts (s : GsState) (r : GsResp) :
    gsHttpGet s r =
      ((if r.status = 200 then r.body else []),
       { s with lastResponseCode := r.status,
                cookieSID := if r.status = 200 ∧ r.setCookie ≠ []
                             then (gsExtractCookie r.setCookie s.cookieSID).2
                             else s.cookieSID }) := by
  unfold gsHttpGet
  split_ifs <;> simp_all

/-- Characterization of `gsHttpPost` as an explicit pair (helper). -/
theorem gsHttpPost_parts (s : GsState) (body0 : List Char) (r : GsResp) :
    gsHttpPost s body0 r =
      ((if r.status = 200 then r.body else []),
       { s with lastResponseCode := r.status,
                cookieSID := if r.status = 200 ∧ r.setCookie ≠ []
                             then (gsExtractCookie r.setCookie s.cookieSID).2
                             else s.cookieSID }) := by
  unfold gsHttpPost
  split_ifs <;> simp_all

/-- Characterization of `gsFetchLoginPage` when the GET yields status 200
with a nonempty body (helper). -/
theorem gsFetchLoginPage_parts (md5 : List Char → List Char) (s : GsState) (r : GsResp)
    (h1 : r.status = 200) (h2 : r.body ≠ []) :
    gsFetchLoginPage md5 s r =
      (true,
       { s with lastResponseCode := r.status,
                cookieSID := if r.status = 200 ∧ r.setCookie ≠ []
                             then (gsExtractCookie r.setCookie s.cookieSID).2
                             else s.cookieSID,
                clientHash := if gsExtractRand r.body = [] then md5 s.password
                              else md5 (s.password ++ gsExtractRand r.body) }) := by
  unfold gsFetchLoginPage
  rw [gsHttpGet_parts]
  simp only [h1, if_true]
  by_cases hr : gsExtractRand r.body = [] <;> simp [h2, hr]

/-- C2 (amended): in the Arduino library — provided the login-page GET
returns status 200 with a nonempty body, so that the flow reaches the
credential POST — login succeeds exactly when the stored SID cookie is
nonempty afterwards, with no condition on the POST status code, and
`_authenticated` records that same value.  The CLI login additionally
requires POST status 200 (and a rand token), so the claim fails there: see
the counterexample. -/
theorem gsLogin_succeeds_iff_cookie (md5 : List Char → List Char) (s : GsState)
    (r1 r2 : GsResp) (h1 : r1.status = 200) (h2 : r1.body ≠ []) :
    ((gsLogin md5 s r1 r2).1 = true ↔ ((gsLogin md5 s r1 r2).2).cookieSID ≠ []) ∧
    ((gsLogin md5 s r1 r2).2).authenticated = (gsLogin md5 s r1 r2).1 := by
  simp only [gsLogin, gsFetchLoginPage_parts md5 s r1 h1 h2, gsHttpPost_parts]
  simp [decide_eq_true_iff]

/-- C2 witness: a POST answering 200 with `Set-Cookie: SID=abc` yields a
successful login. -/
theorem gsLogin_succeeds_iff_cookie_witness :
    (gsLogin (fun x => x) (gsInit (str "pw")) ⟨200, [], str "x"⟩
      ⟨200, str "Set-Cookie: SID=abc\r", []⟩).1 = true :=
  (gsLogin_succeeds_iff_cookie (fun x => x) (gsInit (str "pw")) ⟨200, [], str "x"⟩
    ⟨200, str "Set-Cookie: SID=abc\r", []⟩ (by decide) (by decide)).1.mpr (by decide)

/-- C2 counterexample: the login POST answers status 500 but its headers
carry `SID=abc`; the CLI extracts and stores the nonempty cookie, yet
`GS308EP_CLI::login` still fails because it also requires POST status 200 —
against "succeeds iff the cookie is present, regardless of the POST status". -/
theorem cliLogin_status_check_cex :
    (cliLogin (fun x => x) (cliInit (str "pw"))
        ⟨true, 200, [], str "name=\"rand\" value=\"7\""⟩
        ⟨true, 500, str "SID=abc;\r\n", []⟩).1 = false ∧
    (cliLogin (fun x => x) (cliInit (str "pw"))
        ⟨true, 200, [], str "name=\"rand\" value=\"7\""⟩
        ⟨true, 500, str "SID=abc;\r\n", []⟩).2.cookieSid = str "abc" ∧
    (cliLogin (fun x => x) (cliInit (str "pw"))
        ⟨true, 200, [], str "name=\"rand\" value=\"7\""⟩
        ⟨true, 500, str "SID=abc;\r\n", []⟩).2.authenticated = false := by decide

/-- C3 (amended): in the Arduino library — provided the login-page GET
returns status 200 with a nonempty body — `fetchLoginPage` never fails at the
rand step: a missing rand token falls back to `digest = MD5(bare password)`
(legacy firmware) and a found rand gives `digest = MD5(password + rand)`, and
`login` then proceeds to the POST.  The CLI login instead fails outright when
no rand can be extracted: see the counterexample. -/
theorem gsFetchLoginPage_rand_fallback (md5 : List Char → List Char) (s : GsState)
    (r : GsResp) (h1 : r.status = 200) (h2 : r.body ≠ []) :
    (gsFetchLoginPage md5 s r).1 = true ∧
    (gsExtractRand r.body = [] →
      ((gsFetchLoginPage md5 s r).2).clientHash = md5 s.password) ∧
    (gsExtractRand r.body ≠ [] →
      ((gsFetchLoginPage md5 s r).2).clientHash = md5 (s.password ++ gsExtractRand r.body)) := by
  rw [gsFetchLoginPage_parts md5 s r h1 h2]
  refine ⟨rfl, ?_, ?_⟩ <;> intro hr <;> simp [hr]

/-- C3 witness: a login page with no rand token makes the stored digest the
hash of the bare password (`md5` instantiated with the identity function, so
the digest is the password itself), and the fetch still reports success. -/
theorem gsFetchLoginPage_rand_fallback_witness :
    (gsFetchLoginPage (fun x => x) (gsInit (str "pw")) ⟨200, [], str "<html></html>"⟩).1
        = true ∧
    (gsFetchLoginPage (fun x => x) (gsInit (str "pw"))
        ⟨200, [], str "<html></html>"⟩).2.clientHash = str "pw" :=
  ⟨(gsFetchLoginPage_rand_fallback (fun x => x) (gsInit (str "pw"))
      ⟨200, [], str "<html></html>"⟩ (by decide) (by decide)).1,
   (gsFetchLoginPage_rand_fallback (fun x => x) (gsInit (str "pw"))
      ⟨200, [], str "<html></html>"⟩ (by decide) (by decide)).2.1 (by decide)⟩

/-- C3 counterexample: on a login page with no rand token the CLI login
returns failure at the rand step and never reaches the POST — its trace holds
only the login-page GET — even though the provided POST response would have
completed the login. -/
theorem cliLogin_missing_rand_cex :
    (cliLogin (fun x => x) (cliInit (str "pw"))
        ⟨true, 200, [], str "<html>no token</html>"⟩
        ⟨true, 200, str "SID=abc;", []⟩).1 = false ∧
    (cliLogin (fun x => x) (cliInit (str "pw"))
        ⟨true, 200, [], str "<html>no token</html>"⟩
        ⟨true, 200, str "SID=abc;", []⟩).2.trace = [ReqEvent.get (str "/login.cgi")] ∧
    (cliLogin (fun x => x) (cliInit (str "pw"))
        ⟨true, 200, [], str "<html>no token</html>"⟩
        ⟨true, 200, str "SID=abc;", []⟩).2.authenticated = false := by decide

/-- Characterization of `cliHttpGet` as an explicit pair (helper). -/
theorem cliHttpGet_parts (s : CLIState) (path : List Char) (r : CliResp) :
    cliHttpGet s path r =
      (r.body,
       { s with trace := ReqEvent.get path :: s.trace,
                lastCode := if r.ok then r.status else 0,
                cookieSid := if r.ok ∧ cliExtractCookie r.headers ≠ []
                             then cliExtractCookie r.headers else s.cookieSid }) := by
  unfold cliHttpGet
  split_ifs <;> simp_all

/-- Characterization of `cliHttpPost` as an explicit pair (helper). -/
theorem cliHttpPost_parts (s : CLIState) (path body : List Char) (r : CliResp) :
    cliHttpPost s path body r =
      (r.body,
       { s with trace := ReqEvent.post path body :: s.trace,
                lastCode := if r.ok then r.status else 0,
                cookieSid := if r.ok ∧ cliExtractCookie r.headers ≠ []
                             then cliExtractCookie r.headers else s.cookieSid }) := by
  unfold cliHttpPost
  split_ifs <;> simp_all

/-- C4: for an authenticated session and a valid port, once the config fetch
and token extraction succeed, `setPortState` succeeds exactly when the
state-change POST's HTTP status is 200 — and nothing else makes it succeed.
In the Arduino library the extra `SUCCESS`-string disjunct is subsumed:
`httpPost` returns the empty body unless the status is 200, and the empty
body does not contain `SUCCESS`.  In the CLI the final test is literally
`last_response_code_ == 200`, the code being 0 on a transport failure. -/
theorem setPortState_success_iff_status200 :
    (∀ (s : GsState) (port : Nat) (en : Bool) (r1 r2 : GsResp),
      s.authenticated = true → isValidPort port = true → r1.status = 200 →
      (gsExtractClientHash r1.body s.clientHash).1 = true →
      ((gsSetPoEPortState s port en r1 r2).1 = true ↔ r2.status = 200)) ∧
    (∀ (s : CLIState) (port : Nat) (en : Bool) (r1 r2 : CliResp),
      s.authenticated = true → isValidPort port = true →
      r1.ok = true → r1.status = 200 →
      (cliExtractClientHash r1.body s.clientHash).1 = true →
      ((cliSetPortState s port en r1 r2).1 = true ↔ r2.ok = true ∧ r2.status = 200)) := by
  have hS : strFindFrom ([] : List Char) (str "SUCCESS") 0 = none := by decide
  constructor
  · intro s port en r1 r2 hauth hport hget hhash
    rcases hE : gsExtractClientHash r1.body s.clientHash with ⟨b, v⟩
    rw [hE] at hhash
    cases b
    · exact absurd hhash (by simp)
    · by_cases h200 : r2.status = 200
      · simp [gsSetPoEPortState, hauth, hport, gsHttpGet_parts, hget, hE,
          gsHttpPost_parts, h200]
      · simp [gsSetPoEPortState, hauth, hport, gsHttpGet_parts, hget, hE,
          gsHttpPost_parts, h200, hS]
  · intro s port en r1 r2 hauth hport hok hget hhash
    rcases hE : cliExtractClientHash r1.body s.clientHash with ⟨b, v⟩
    rw [hE] at hhash
    cases b
    · exact absurd hhash (by simp)
    · have h0 : ¬((0 : Int) = 200) := by decide
      by_cases hok2 : r2.ok = true
      · by_cases h200 : r2.status = 200
        · simp [cliSetPortState, hauth, hport, cliHttpGet_parts, hok, hget, hE,
            cliHttpPost_parts, hok2, h200]
        · simp [cliSetPortState, hauth, hport, cliHttpGet_parts, hok, hget, hE,
            cliHttpPost_parts, hok2, h200]
      · simp only [Bool.not_eq_true] at hok2
        simp [cliSetPortState, hauth, hport, cliHttpGet_parts, hok, hget, hE,
          cliHttpPost_parts, hok2, h0]

/-- C4 witness: an authenticated Arduino session, a config page carrying a
hash token and a POST answering 200 yield success. -/
theorem setPortState_success_iff_status200_witness :
    (gsSetPoEPortState ⟨str "pw", str "c", [], true, 0⟩ 1 true
      ⟨200, [], str "name='hash' value=\"tok\""⟩ ⟨200, [], []⟩).1 = true :=
  (setPortState_success_iff_status200.1 ⟨str "pw", str "c", [], true, 0⟩ 1 true
      ⟨200, [], str "name='hash' value=\"tok\""⟩ ⟨200, [], []⟩
      (by decide) (by decide) (by decide) (by decide)).mpr (by decide)

/-- C5: `cyclePort` short-circuits.  When the off-step fails, the call
returns failure and its final state is exactly the off-step's state — in
particular the trace gains nothing after the off-step, so no sleep happens
and the on-step `setPortState(..., true)` contributes zero transport calls.
When the off-step succeeds, the call records the sleep and returns exactly
the on-step's result. -/
theorem cyclePort_off_fail_short_circuits (s : CLIState) (port delayMs : Nat)
    (r1 r2 r3 r4 : CliResp) :
    ((cliSetPortState s port false r1 r2).1 = false →
      cliCyclePort s port delayMs r1 r2 r3 r4 =
        (false, (cliSetPortState s port false r1 r2).2) ∧
      ((cliCyclePort s port delayMs r1 r2 r3 r4).2).trace =
        ((cliSetPortState s port false r1 r2).2).trace) ∧
    ((cliSetPortState s port false r1 r2).1 = true →
      cliCyclePort s port delayMs r1 r2 r3 r4 =
        cliSetPortState
          { (cliSetPortState s port false r1 r2).2 with
            trace := ReqEvent.sleep delayMs :: ((cliSetPortState s port false r1 r2).2).trace }
          port true r3 r4) := by
  rcases hoff : cliSetPortState s port false r1 r2 with ⟨b, s1⟩
  cases b
  · constructor
    · intro _
      constructor
      · unfold cliCyclePort
        rw [hoff]
      · unfold cliCyclePort
        rw [hoff]
    · intro hb
      exact absurd hb (by simp)
  · constructor
    · intro hb
      exact absurd hb (by simp)
    · intro _
      unfold cliCyclePort
      rw [hoff]
      rcases hon : cliSetPortState
          { s1 with trace := ReqEvent.sleep delayMs :: s1.trace } port true r3 r4 with ⟨b2, s3⟩
      simp only [hon]
      cases b2 <;> rfl

/-- C5 witness: from an unauthenticated state the off-step fails, and the
whole cycle returns failure in the off-step's state with no on-step call. -/
theorem cyclePort_off_fail_witness :
    cliCyclePort (cliInit (str "p")) 3 50 ⟨true, 200, [], []⟩ ⟨true, 200, [], []⟩
        ⟨true, 200, [], []⟩ ⟨true, 200, [], []⟩ =
      (false, (cliSetPortState (cliInit (str "p")) 3 false
        ⟨true, 200, [], []⟩ ⟨true, 200, [], []⟩).2) :=
  ((cyclePort_off_fail_short_circuits (cliInit (str "p")) 3 50 ⟨true, 200, [], []⟩
      ⟨true, 200, [], []⟩ ⟨true, 200, [], []⟩ ⟨true, 200, [], []⟩).1 (by decide)).1

/-- C6 (amended): complete case analysis of the CLI implementation
`GS308EP_CLI::extractPortPower`: it returns the -1 sentinel exactly in the
enumerated failure cases — anchor missing, `ml574` missing or beyond the
2000-byte window, following span malformed, or no float conversion for the
span text — and the parsed value otherwise, exceptions being caught.  The
cited test-harness version instead propagates the `stof` exception on an
unparsable span (see the counterexample), and the cited Arduino version uses
a 1000-byte window and yields 0, not -1, on a failed conversion. -/
theorem cliExtractPortPower_characterization (pf : List Char → Option ℚ)
    (html : List Char) (port : Nat) :
    (strFindFrom html (portAnchor port) 0 = none →
      cliExtractPortPower pf html port = -1) ∧
    (∀ p, strFindFrom html (portAnchor port) 0 = some p →
      (strFindFrom html (str "ml574") p = none → cliExtractPortPower pf html port = -1) ∧
      (∀ m, strFindFrom html (str "ml574") p = some m →
        (p + 2000 < m → cliExtractPortPower pf html port = -1) ∧
        (m ≤ p + 2000 →
          (spanTextAfter html (m + 5) = none → cliExtractPortPower pf html port = -1) ∧
          (∀ t, spanTextAfter html (m + 5) = some t →
            cliExtractPortPower pf html port = (pf t).getD (-1))))) := by
  constructor
  · intro h; simp [cliExtractPortPower, h]
  · intro p hp
    constructor
    · intro h; simp [cliExtractPortPower, hp, h]
    · intro m hm
      constructor
      · intro h; simp [cliExtractPortPower, hp, hm, if_pos h]
      · intro hle
        have hn : ¬ (p + 2000 < m) := by omega
        constructor
        · intro h; simp [cliExtractPortPower, hp, hm, hn, h]
        · intro t ht; simp [cliExtractPortPower, hp, hm, hn, ht]

/-- C6 witness: a well-formed snapshot (`anchor`, `ml574` in the window, span
text `5.8`) parses to 5.8 W through the success branch of the theorem. -/
theorem cliExtractPortPower_witness :
    cliExtractPortPower parseDecimal (str "value=\"1\" ml574 <span>5.8</span>") 1 = 29/5 := by
  have h := ((((cliExtractPortPower_characterization parseDecimal
      (str "value=\"1\" ml574 <span>5.8</span>") 1).2 0 (by decide)).2 10
      (by decide)).2 (by decide)).2 (str "5.8") (by decide)
  rw [h]
  have h2 : parseDecimal (str "5.8") =
      some ((1 : ℚ) * (((5 : Nat) : ℚ) + ((8 : Nat) : ℚ) / ((10 : ℚ) ^ (1 : Nat)))) := rfl
  rw [h2]
  norm_num

/-- C6 counterexample: on a snapshot whose power span holds `abc` — no valid
float conversion, as `parseDecimal` confirms — the cited test-harness
`extractPortPower` propagates the `std::stof` exception (`Except.error`)
instead of returning the -1 sentinel, contradicting "returns -1 ... and never
throws". -/
theorem testExtractPortPower_throws_cex :
    testExtractPortPower parseDecimal (str "value=\"1\" ml574 <span>abc</span>") 1 =
      .error () ∧
    parseDecimal (str "abc") = none := ⟨rfl, rfl⟩

/-- The value `v` is derived from the LAST occurrence of `lbl` in `sa`: the
backward scan settles on a position `k` that is an occurrence, every
occurrence lies at or before `k`, and `v` is computed from `k` by `txt`. -/
def fromLastOcc (sa lbl v : List Char) (txt : Nat → List Char) : Prop :=
  ∃ k, lastFindL sa lbl = some k ∧ occursAtB sa lbl k = true ∧
    (∀ m, occursAtB sa lbl m = true → m ≤ k) ∧ v = txt k

/-- C7: when the backward-searched labels occur twice (or more) inside the
500-byte window before the port anchor, `extractPortStats` derives `status`
and `powerClass` from the last such occurrence — the one closest to the
anchor — not the first. -/
theorem extractPortStats_backward_last_occurrence (pf : List Char → Option ℚ)
    (html : List Char) (port p i j i2 j2 : Nat)
    (hp : strFindFrom html (portAnchor port) 0 = some p)
    (hs1 : occursAtB (backArea html p) (str "poe-power-mode") i = true)
    (hs2 : occursAtB (backArea html p) (str "poe-power-mode") j = true)
    (hij : i < j)
    (hc1 : occursAtB (backArea html p) (str "powClassShow") i2 = true)
    (hc2 : occursAtB (backArea html p) (str "powClassShow") j2 = true)
    (hij2 : i2 < j2) :
    fromLastOcc (backArea html p) (str "poe-power-mode")
      ((cliExtractPortStats pf html port).2.status)
      (statusTextAt (backArea html p)) ∧
    fromLastOcc (backArea html p) (str "powClassShow")
      ((cliExtractPortStats pf html port).2.powerClass)
      (fun k => match classTextAt (backArea html p) k with
                | some t => cliDecodeClass t
                | none => str "Unknown") := by
  have hne1 : (str "poe-power-mode") ≠ [] := by decide
  have hne2 : (str "powClassShow") ≠ [] := by decide
  obtain ⟨k, hk, hkocc, hkmax⟩ :=
    lastFindL_max (backArea html p) (str "poe-power-mode") hne1 j hs2
  obtain ⟨kc, hkc, hkcocc, hkcmax⟩ :=
    lastFindL_max (backArea html p) (str "powClassShow") hne2 j2 hc2
  constructor
  · exact ⟨k, hk, hkocc, hkmax, by simp [cliExtractPortStats, hp, hk]⟩
  · exact ⟨kc, hkc, hkcocc, hkcmax, by simp [cliExtractPortStats, hp, hkc]⟩

/-- A status-page fragment for port 3 whose backward window holds two
`poe-power-mode` labels (offsets 0 and 30) and two `powClassShow` labels
(offsets 73 and 101) before the anchor at offset 129. -/
def demoStatusPage : List Char :=
  str ("poe-power-mode<span>Old</span>poe-power-mode<span>Delivering Power</span>" ++
    "powClassShow>ml003@1@</span>powClassShow>ml003@4@</span>value=\"3\"")

/-- C7 witness: on `demoStatusPage` both fields are derived from the second
(last) occurrence of their labels. -/
theorem extractPortStats_backward_last_witness :
    fromLastOcc (backArea demoStatusPage 129) (str "poe-power-mode")
      ((cliExtractPortStats parseDecimal demoStatusPage 3).2.status)
      (statusTextAt (backArea demoStatusPage 129)) ∧
    fromLastOcc (backArea demoStatusPage 129) (str "powClassShow")
      ((cliExtractPortStats parseDecimal demoStatusPage 3).2.powerClass)
      (fun k => match classTextAt (backArea demoStatusPage 129) k with
                | some t => cliDecodeClass t
                | none => str "Unknown") :=
  extractPortStats_backward_last_occurrence parseDecimal demoStatusPage 3 129 0 30 73 101
    (by decide) (by decide) (by decide) (by decide) (by decide) (by decide) (by decide)

/-- C8 (amended): in the CLI and test-harness extractor, when `SID=` is
present the value runs up to the first `;` anywhere after the name —
regardless of any earlier `\r` or `\n` — and only in the absence of a `;` to
the first `\r`, then the first `\n`, then end of string: a fixed priority
order over terminator kinds, not the lowest byte offset (see the
counterexample).  The Arduino `GS308EP::extractCookie` follows the same
terminator priority but additionally requires a preceding `Set-Cookie:`
marker and has no end-of-string fallback: when none of `;`, `\r`, `\n`
occurs after the value it fails, leaving the stored cookie unchanged. -/
theorem extractCookie_terminator_priority :
    (∀ (headers : List Char) (p : Nat),
      strFindFrom headers (str "SID=") 0 = some p →
      (∀ e, strFindFrom headers (str ";") (p + 4) = some e →
        cliExtractCookie headers = sliceL headers (p + 4) e) ∧
      (strFindFrom headers (str ";") (p + 4) = none →
        ∀ e, strFindFrom headers (str "\r") (p + 4) = some e →
          cliExtractCookie headers = sliceL headers (p + 4) e) ∧
      (strFindFrom headers (str ";") (p + 4) = none →
        strFindFrom headers (str "\r") (p + 4) = none →
        ∀ e, strFindFrom headers (str "\n") (p + 4) = some e →
          cliExtractCookie headers = sliceL headers (p + 4) e) ∧
      (strFindFrom headers (str ";") (p + 4) = none →
        strFindFrom headers (str "\r") (p + 4) = none →
        strFindFrom headers (str "\n") (p + 4) = none →
        cliExtractCookie headers = sliceL headers (p + 4) headers.length)) ∧
    (∀ (headers old : List Char) (c p : Nat),
      strFindFrom headers (str "Set-Cookie:") 0 = some c →
      strFindFrom headers (str "SID=") c = some p →
      (∀ e, strFindFrom headers (str ";") (p + 4) = some e →
        gsExtractCookie headers old =
          (decide (sliceL headers (p + 4) e ≠ []), sliceL headers (p + 4) e)) ∧
      (strFindFrom headers (str ";") (p + 4) = none →
        ∀ e, strFindFrom headers (str "\r") (p + 4) = some e →
          gsExtractCookie headers old =
            (decide (sliceL headers (p + 4) e ≠ []), sliceL headers (p + 4) e)) ∧
      (strFindFrom headers (str ";") (p + 4) = none →
        strFindFrom headers (str "\r") (p + 4) = none →
        ∀ e, strFindFrom headers (str "\n") (p + 4) = some e →
          gsExtractCookie headers old =
            (decide (sliceL headers (p + 4) e ≠ []), sliceL headers (p + 4) e)) ∧
      (strFindFrom headers (str ";") (p + 4) = none →
        strFindFrom headers (str "\r") (p + 4) = none →
        strFindFrom headers (str "\n") (p + 4) = none →
        gsExtractCookie headers old = (false, old))) := by
  constructor
  · intro headers p h
    refine ⟨?_, ?_, ?_, ?_⟩
    · intro e he; simp [cliExtractCookie, h, he]
    · intro h1 e he; simp [cliExtractCookie, h, h1, he]
    · intro h1 h2 e he; simp [cliExtractCookie, h, h1, h2, he]
    · intro h1 h2 h3; simp [cliExtractCookie, h, h1, h2, h3]
  · intro headers old c p hc hs
    refine ⟨?_, ?_, ?_, ?_⟩
    · intro e he; simp [gsExtractCookie, hc, hs, he]
    · intro h1 e he; simp [gsExtractCookie, hc, hs, h1, he]
    · intro h1 h2 e he; simp [gsExtractCookie, hc, hs, h1, h2, he]
    · intro h1 h2 h3; simp [gsExtractCookie, hc, hs, h1, h2, h3]

/-- C8 witness: a realistic header line terminates the CLI value at the `;`,
and the Arduino extractor fails on headers with no terminator after the
value, leaving the stored cookie unchanged. -/
theorem extractCookie_terminator_witness :
    cliExtractCookie (str "SID=xyz; Path=/\r\n") = str "xyz" ∧
    gsExtractCookie (str "Set-Cookie: SID=abc") (str "old") = (false, str "old") := by
  constructor
  · have h := (extractCookie_terminator_priority.1 (str "SID=xyz; Path=/\r\n") 0
      (by decide)).1 7 (by decide)
    rw [h]; decide
  · exact (extractCookie_terminator_priority.2 (str "Set-Cookie: SID=abc") (str "old")
      0 12 (by decide) (by decide)).2.2.2 (by decide) (by decide) (by decide)

/-- The claim's cookie-value rule, following its words: the text from just
after `SID=` up to the first occurrence among `;`, CR and LF — whichever
comes at the lowest byte offset — or up to end of string when none of the
three occurs; `NotFound` only when `SID=` is absent. -/
def extractCookieValueSpec (headers : List Char) : Option (List Char) :=
  match strFindFrom headers (str "SID=") 0 with
  | none => none
  | some p =>
    some (sliceL headers (p + 4)
      (([strFindFrom headers (str ";") (p + 4),
         strFindFrom headers (str "\r") (p + 4),
         strFindFrom headers (str "\n") (p + 4)].filterMap id).foldr min headers.length))

/-- C8 counterexample: on `SID=abc\ndef;x` the claim's lowest-offset rule
stops at the LF (offset 7) and yields `abc`, but the CLI extractor checks `;`
first and yields `abc\ndef`. -/
theorem cliExtractCookie_priority_cex :
    extractCookieValueSpec (str "SID=abc\ndef;x") = some (str "abc") ∧
    cliExtractCookie (str "SID=abc\ndef;x") = str "abc\ndef" ∧
    str "abc" ≠ str "abc\ndef" := by decide

/-- `cliExtractPortStats` succeeds exactly when the port anchor is found, and
always reports the requested port (helper). -/
theorem cliExtractPortStats_parts (pf : List Char → Option ℚ) (html : List Char)
    (port : Nat) :
    (cliExtractPortStats pf html port).1 = (strFindFrom html (portAnchor port) 0).isSome ∧
    ((cliExtractPortStats pf html port).2).port = port := by
  unfold cliExtractPortStats
  cases strFindFrom html (portAnchor port) 0 <;> simp [defaultStats]

/-- Port projection of the CLI collection loop over any port list (helper). -/
theorem cliStats_filterMap_ports (pf : List Char → Option ℚ) (html : List Char) :
    ∀ l : List Nat,
      ((l.filterMap (fun port =>
        match cliExtractPortStats pf html port with
        | (true, st) => some st
        | (false, _) => none)).map PoEPortStats.port) =
      l.filter (fun port => (strFindFrom html (portAnchor port) 0).isSome) := by
  intro l
  induction l with
  | nil => rfl
  | cons a t ih =>
    have h := cliExtractPortStats_parts pf html a
    rcases hE : cliExtractPortStats pf html a with ⟨b, st⟩
    rw [hE] at h
    cases b
    · have hfalse : (strFindFrom html (portAnchor a) 0).isSome = false := h.1.symm
      simp [List.filterMap_cons, List.filter_cons, hE, hfalse, ih]
    · have htrue : (strFindFrom html (portAnchor a) 0).isSome = true := h.1.symm
      have hport : st.port = a := h.2
      simp [List.filterMap_cons, List.filter_cons, hE, htrue, hport, ih]

/-- `cliAllStats` over the explicit port list 1..8 (helper). -/
theorem cliAllStats_eq_filterMap (pf : List Char → Option ℚ) (html : List Char) :
    cliAllStats pf html =
      ([1, 2, 3, 4, 5, 6, 7, 8].filterMap (fun port =>
        match cliExtractPortStats pf html port with
        | (true, st) => some st
        | (false, _) => none)) := rfl

/-- `foldl` accumulation of `power` equals the sum of the projections (helper). -/
theorem foldl_power_sum : ∀ (l : List PoEPortStats) (a : ℚ),
    l.foldl (fun x s => x + s.power) a = a + (l.map PoEPortStats.power).sum := by
  intro l
  induction l with
  | nil => intro a; simp
  | cons s t ih => intro a; simp [ih, add_assoc]

/-- C9 (amended, CLI): the port projection of `showAllStats`'s collection is
exactly the ascending list of the ports 1..8 whose anchor lookup succeeds —
so the sequence contains exactly the anchored ports, in ascending order, with
no placeholder entries — its length is at most 8, and the reported
`totalPower` equals the sum of the power fields over the returned sequence.
The cited Arduino `getAllPoEPortStats` instead fills all eight slots of the
caller's array whether or not the port's anchor was found: see the
counterexample. -/
theorem cliAllStats_exact_ports_and_total (pf : List Char → Option ℚ) (html : List Char) :
    (cliAllStats pf html).map PoEPortStats.port =
      [1, 2, 3, 4, 5, 6, 7, 8].filter
        (fun port => (strFindFrom html (portAnchor port) 0).isSome) ∧
    (cliAllStats pf html).length ≤ 8 ∧
    List.Pairwise (· < ·) ((cliAllStats pf html).map PoEPortStats.port) ∧
    cliTotalPower (cliAllStats pf html) =
      ((cliAllStats pf html).map PoEPortStats.power).sum := by
  have hmap := cliStats_filterMap_ports pf html [1, 2, 3, 4, 5, 6, 7, 8]
  rw [cliAllStats_eq_filterMap pf html]
  refine ⟨hmap, ?_, ?_, ?_⟩
  · simpa using List.length_filterMap_le _ [1, 2, 3, 4, 5, 6, 7, 8]
  · rw [hmap]
    exact List.Pairwise.sublist (List.filter_sublist _) (by decide)
  · unfold cliTotalPower
    rw [foldl_power_sum, zero_add]

/-- C9 counterexample: on a snapshot containing only port 1's anchor the
Arduino `getAllPoEPortStats` loop still produces a record for every one of
the eight ports — placeholder defaults for ports 2..8 whose anchor lookup
fails — rather than a sequence containing exactly the anchored ports. -/
theorem gsGetAllPoEPortStats_placeholder_cex :
    ((gsAllStatsCore parseDecimal (str "value=\"1\"")).2).map PoEPortStats.port =
      [1, 2, 3, 4, 5, 6, 7, 8] ∧
    strFindFrom (str "value=\"1\"") (portAnchor 2) 0 = none ∧
    (gsAllStatsCore parseDecimal (str "value=\"1\"")).1 = false := by decide

/-- The C10 invariant: an authenticated CLI session stores a nonempty cookie. -/
def CliInv (s : CLIState) : Prop := s.authenticated = true → s.cookieSid ≠ []

/-- `cliHttpGet` preserves the invariant: it never touches `authenticated_`
and only overwrites the cookie with a nonempty extracted value (helper). -/
theorem cliHttpGet_inv (s : CLIState) (path : List Char) (r : CliResp)
    (h : CliInv s) : CliInv ((cliHttpGet s path r).2) := by
  rw [cliHttpGet_parts]
  intro ha
  show (if r.ok ∧ cliExtractCookie r.headers ≠ []
        then cliExtractCookie r.headers else s.cookieSid) ≠ []
  split_ifs with hc
  · exact hc.2
  · exact h ha

/-- `cliHttpPost` preserves the invariant (helper). -/
theorem cliHttpPost_inv (s : CLIState) (path body : List Char) (r : CliResp)
    (h : CliInv s) : CliInv ((cliHttpPost s path body r).2) := by
  rw [cliHttpPost_parts]
  intro ha
  show (if r.ok ∧ cliExtractCookie r.headers ≠ []
        then cliExtractCookie r.headers else s.cookieSid) ≠ []
  split_ifs with hc
  · exact hc.2
  · exact h ha

/-- `cliHttpGet` invariant, phrased on an equation (helper). -/
theorem cliHttpGet_snd_inv (s : CLIState) (path : List Char) (r : CliResp)
    (pb : List Char) (s1 : CLIState) (heq : cliHttpGet s path r = (pb, s1))
    (h : CliInv s) : CliInv s1 := by
  have hh := cliHttpGet_inv s path r h
  rwa [heq] at hh

/-- `cliHttpPost` invariant, phrased on an equation (helper). -/
theorem cliHttpPost_snd_inv (s : CLIState) (path body : List Char) (r : CliResp)
    (pb : List Char) (s2 : CLIState) (heq : cliHttpPost s path body r = (pb, s2))
    (h : CliInv s) : CliInv s2 := by
  have hh := cliHttpPost_inv s path body r h
  rwa [heq] at hh

/-- `cliLogin` preserves the invariant: `authenticated_` is only set after
the check `cookie_sid_.empty()` fails (helper). -/
theorem cliLogin_inv (md5 : List Char → List Char) (s : CLIState) (r1 r2 : CliResp)
    (h : CliInv s) : CliInv ((cliLogin md5 s r1 r2).2) := by
  unfold cliLogin
  split
  next page s1 heq =>
    have hs1 := cliHttpGet_snd_inv _ _ _ _ _ heq h
    split
    · exact hs1
    · dsimp only
      split
      · exact hs1
      · split
        · exact cliHttpPost_inv _ _ _ _ hs1
        next hc =>
          push_neg at hc
          intro _
          exact hc.2

/-- `cliSetPortState` preserves the invariant (helper). -/
theorem cliSetPortState_inv (s : CLIState) (port : Nat) (en : Bool) (r1 r2 : CliResp)
    (h : CliInv s) : CliInv ((cliSetPortState s port en r1 r2).2) := by
  unfold cliSetPortState
  split
  · exact h
  · split
    · exact h
    · split
      next page s1 heq =>
        have hs1 := cliHttpGet_snd_inv _ _ _ _ _ heq h
        split
        · exact hs1
        · split
          next v heq2 =>
            intro ha
            exact hs1 ha
          next v heq2 =>
            split
            next pb s3 heq3 =>
              have hs3 := cliHttpPost_snd_inv _ _ _ _ _ _ heq3 (fun ha => hs1 ha)
              exact hs3

/-- `cliSetPortState` invariant, phrased on an equation (helper). -/
theorem cliSetPortState_snd_inv (s : CLIState) (port : Nat) (en : Bool)
    (r1 r2 : CliResp) (b : Bool) (s' : CLIState)
    (heq : cliSetPortState s port en r1 r2 = (b, s')) (h : CliInv s) : CliInv s' := by
  have hh := cliSetPortState_inv s port en r1 r2 h
  rwa [heq] at hh

/-- `cliCyclePort` preserves the invariant (helper). -/
theorem cliCyclePort_inv (s : CLIState) (port delayMs : Nat) (r1 r2 r3 r4 : CliResp)
    (h : CliInv s) : CliInv ((cliCyclePort s port delayMs r1 r2 r3 r4).2) := by
  unfold cliCyclePort
  split
  next s1 heq => exact cliSetPortState_snd_inv _ _ _ _ _ _ _ heq h
  next s1 heq =>
    have hs1 := cliSetPortState_snd_inv _ _ _ _ _ _ _ heq h
    split
    next s3 heq2 => exact cliSetPortState_snd_inv _ _ _ _ _ _ _ heq2 (fun ha => hs1 ha)
    next s3 heq2 => exact cliSetPortState_snd_inv _ _ _ _ _ _ _ heq2 (fun ha => hs1 ha)

/-- `cliGetPortStatus` preserves the invariant (helper). -/
theorem cliGetPortStatus_inv (s : CLIState) (port : Nat) (r : CliResp)
    (h : CliInv s) : CliInv ((cliGetPortStatus s port r).2) := by
  unfold cliGetPortStatus
  split
  · exact h
  · split
    next page s1 heq =>
      have hs1 := cliHttpGet_snd_inv _ _ _ _ _ heq h
      split
      · exact hs1
      · split
        · exact hs1
        · split
          · exact hs1
          · exact hs1

/-- The remaining show-operations only perform a GET (helper). -/
theorem cliShowOps_inv (s : CLIState) (r : CliResp)
    (h : CliInv s) :
    CliInv ((cliShowTotalPower s r).2) ∧
    (∀ pf port, CliInv ((cliShowPortPower pf s port r).2)) ∧
    (∀ pf, CliInv ((cliShowAllStats pf s r).2)) ∧
    (∀ port, CliInv ((cliShowPortStatus s port r).2)) := by
  refine ⟨?_, ?_, ?_, ?_⟩
  · unfold cliShowTotalPower
    split
    next page s1 heq =>
      have hs1 := cliHttpGet_snd_inv _ _ _ _ _ heq h
      split <;> exact hs1
  · intro pf port
    unfold cliShowPortPower
    split
    next page s1 heq =>
      have hs1 := cliHttpGet_snd_inv _ _ _ _ _ heq h
      split <;> exact hs1
  · intro pf
    unfold cliShowAllStats
    split
    next page s1 heq =>
      have hs1 := cliHttpGet_snd_inv _ _ _ _ _ heq h
      split <;> exact hs1
  · intro port
    exact cliGetPortStatus_inv s port r h

/-- C10 (amended, CLI): every reachable state of the CLI with
`authenticated_ = true` has a nonempty `cookie_sid_`: the cookie is only ever
overwritten by a nonempty extracted value, and login sets `authenticated_`
only after checking the cookie is nonempty.  In the Arduino library the
analogous invariant is violated by a later response — see the
counterexample. -/
theorem cliReach_authenticated_cookie_nonempty (s : CLIState) (h : CliReach s)
    (ha : s.authenticated = true) : s.cookieSid ≠ [] := by
  suffices hInv : CliInv s from hInv ha
  clear ha
  induction h with
  | init pw => intro ha; simp [cliInit] at ha
  | step op hs ih =>
    cases op with
    | login m r1 r2 => exact cliLogin_inv m _ r1 r2 ih
    | turnOn p r1 r2 => exact cliSetPortState_inv _ p true r1 r2 ih
    | turnOff p r1 r2 => exact cliSetPortState_inv _ p false r1 r2 ih
    | cycle p d r1 r2 r3 r4 => exact cliCyclePort_inv _ p d r1 r2 r3 r4 ih
    | showStatus p r => exact (cliShowOps_inv _ r ih).2.2.2 p
    | showPower p r => exact (cliShowOps_inv _ r ih).2.1 parseDecimal p
    | showTotal r => exact (cliShowOps_inv _ r ih).1
    | showAll r => exact (cliShowOps_inv _ r ih).2.2.1 parseDecimal

/-- C10 witness: after a successful login the reachable state is
authenticated, so the theorem yields a nonempty stored cookie. -/
theorem cliReach_authenticated_cookie_witness :
    (cliApply (cliInit (str "pw"))
      (CLIOp.login (fun x => x) ⟨true, 200, [], str "name=\"rand\" value=\"7\""⟩
        ⟨true, 200, str "SID=abc;", []⟩)).cookieSid ≠ [] :=
  cliReach_authenticated_cookie_nonempty _
    (CliReach.step _ (CliReach.init (str "pw"))) (by decide)

/-- C10 counterexample: in the Arduino library, a successful login followed
by a `getPoEPortStatus` whose response carries `Set-Cookie: SID=;` reaches a
state with `authenticated = true` and an empty `_cookieSID` —
`GS308EP::extractCookie` stores the extracted text into `_cookieSID` before
checking that it is nonempty. -/
theorem gsReach_authenticated_empty_cookie_cex :
    ∃ s : GsState, GsReach s ∧ s.authenticated = true ∧ s.cookieSID = [] := by
  refine ⟨gsApply (gsApply (gsInit (str "pw"))
      (GsOp.login (fun x => x) ⟨200, [], str "x"⟩ ⟨200, str "Set-Cookie: SID=abc\r", []⟩))
      (GsOp.status 1 ⟨200, str "Set-Cookie: SID=;\r", []⟩), ?_, ?_, ?_⟩
  · exact GsReach.step _ (GsReach.step _ (GsReach.init (str "pw")))
  · decide
  · decide
